import Mathlib

/-!
Verification of the long-polling notification broker in `src/index.js`.

The registry `subscribers` (line 24 of the source) is a plain JS object
mapping a device id to an array of held response handles; we embed it as
an insertion-ordered association list.  Held connections are identified
by an abstract handle (`Conn`), standing for the `http.ServerResponse`
object compared by reference identity in the source.
-/

namespace LongPoll

/-- A held connection handle: stands for the `http.ServerResponse` object,
identified (as in the source's `subscriber !== res` test, line 158) by
reference identity. -/
structure Conn where
  idx : Nat
deriving DecidableEq, Repr

/-- The `subscribers` object (line 24): device id to array of held
connections, keys in insertion order as in a JS object. -/
def Registry := List (String × List Conn)

instance : DecidableEq Registry := by
  unfold Registry
  infer_instance

/-- The initial `subscribers = {}` of line 24. -/
def registryEmpty : Registry := []

/-- Property read `subscribers[deviceId]` (lines 130, 150, 153, 158, 198):
`some` when the key is present, `none` when absent (JS `undefined`). -/
def getEntry : Registry → String → Option (List Conn)
  | [], _ => none
  | (k, v) :: rest, id => if k = id then some v else getEntry rest id

/-- Property write `subscribers[deviceId] = l` (lines 151, 158, 205):
replaces the value when the key is present, appends a new key otherwise. -/
def setEntry : Registry → String → List Conn → Registry
  | [], id, l => [(id, l)]
  | (k, v) :: rest, id, l =>
      if k = id then (k, l) :: rest else (k, v) :: setEntry rest id l

/-- The connections currently held for `id`: `subscribers[deviceId]`
defaulting the absent case to the empty array, as the source does by
creating `[]` before any read that matters (lines 150-152) or by
`subscribers[deviceId] || {}` (line 130). -/
def held (s : Registry) (id : String) : List Conn :=
  (getEntry s id).getD []

/-- Registry effect of `saveSubscriber` (lines 150-153): create the array
if the key is absent (`!subscribers[deviceId]`), then `push(res)`.  An
existing empty array is truthy in JS, so it is pushed onto, which this
translation reproduces. -/
def register (s : Registry) (id : String) (c : Conn) : Registry :=
  setEntry s id (held s id ++ [c])

/-- Lines 198-205 of `sendDataToSubscribers`, split into its drain part:
the array that `forEach` iterates, and the registry after
`subscribers[deviceId] = []` (the entry is set to an empty array even when
it was absent, exactly as line 205 does unconditionally). -/
def drainAndClear (s : Registry) (id : String) : List Conn × Registry :=
  (held s id, setEntry s id [])

/-- `sendDataToSubscribers(deviceId, data)` (lines 196-206): every drained
connection receives `res.end(data)` - recorded as a `(connection, body)`
resolution effect - and the entry is cleared to `[]`. -/
def sendDataToSubscribers (s : Registry) (id : String) (data : String) :
    Registry × List (Conn × Option String) :=
  ((drainAndClear s id).2, (drainAndClear s id).1.map (fun c => (c, some data)))

/-- `Object.keys(subscribers[deviceId] || {}).length` (line 130): the
number of held connections for `id`, `0` both when the entry is absent and
when it is an empty array. -/
def count (s : Registry) (id : String) : Nat :=
  (held s id).length

/-- Classification of an upstream payload, translated from the condition
`data.length <= 2` at line 186 of `parseDatabaseResponse` (and line 112 of
the POST body handler). -/
inductive Freshness
  | Empty
  | Real
deriving DecidableEq, Repr

/-- The freshness decision of lines 184-186: a payload of length at most 2
(`""`, `"{}"`, `"[]"`, ...) counts as empty, anything longer as real. -/
def classify (p : String) : Freshness :=
  if p.length ≤ 2 then .Empty else .Real

/-- A JavaScript runtime error; the only kind this file needs is the
ReferenceError raised when an unbound identifier is evaluated. -/
inductive JsError
  | referenceError (name : String)
deriving DecidableEq, Repr

/-- The identifiers bound at module scope of `src/index.js`: the four
imports (lines 1-4), the eight configuration constants (lines 6-13), the
`subscribers` object (line 24) and the nine function declarations.  Note
that neither `urlParsed`, nor `parseFunctionResponse`, nor `deviceId`,
nor `subscribeKey` is among them. -/
def moduleScope : List String :=
  ["http", "url", "process", "fetch",
   "port", "subscriptionKey", "publishKey", "PLC_GetDataKey",
   "PLC_GetSetDataKey", "getPLCGetDataEndpoint", "getPLCGetSetDataEndpoint",
   "subscriberTimeout", "subscribers",
   "handleRequest", "handleSubscribeRequest", "handlePublishRequest",
   "saveSubscriber", "GetDeviceData", "GetSetDeviceData",
   "parseDatabaseResponse", "sendDataToSubscribers", "gracefullyShutdown"]

/-- JavaScript globals the file uses (`console.log`, `setTimeout`,
`Object.keys`). -/
def jsGlobals : List String := ["console", "setTimeout", "Object"]

/-- Whether identifier `n` resolves given the local bindings `locals`:
lexical lookup through the locals, then module scope, then globals. -/
def inScope (locals : List String) (n : String) : Bool :=
  (locals ++ moduleScope ++ jsGlobals).contains n

/-- The local bindings visible inside the body of `handleRequest`
(lines 32-98): its parameters and the declarations of lines 54-62. -/
def handleRequestLocals : List String :=
  ["req", "res", "parsedUrl", "deviceId", "code"]

/-- The local bindings visible in the GET branch of
`handleSubscribeRequest` (lines 121-125): just the parameters. -/
def subscribeGetLocals : List String := ["req", "res", "deviceId"]

/-- The local bindings visible inside `handlePublishRequest`: its
parameter list at line 128 is `(req, res)` only, even though the call at
line 90 passes a third argument. -/
def handlePublishLocals : List String := ["req", "res"]

/-- The response bodies the source can emit, kept abstract. -/
inductive Body
  | pingSuccess
  | errMissingDevice
  | errInvalidSubKey
  | errInvalidCode
  | payload (data : String)
deriving DecidableEq, Repr

/-- An operation performed on an `http.ServerResponse`. -/
inductive ResAction
  | endWith (body : Option Body)
  | setStatus (n : Nat)
  | setHeaderCors
deriving DecidableEq, Repr

-- ### Registry lemmas

theorem getEntry_setEntry_self (s : Registry) (id : String) (l : List Conn) :
    getEntry (setEntry s id l) id = some l := by
  induction s with
  | nil => simp [setEntry, getEntry]
  | cons kv rest ih =>
      obtain ⟨k, v⟩ := kv
      by_cases h : k = id
      · simp [setEntry, getEntry, h]
      · simp [setEntry, getEntry, h, ih]

theorem held_register (s : Registry) (id : String) (c : Conn) :
    held (register s id c) id = held s id ++ [c] := by
  unfold register held
  rw [getEntry_setEntry_self]
  rfl

/-- C1: after `register(id, c)` on a state not already holding `c`, the
broadcast of a real payload drains a sequence containing `c` exactly once,
resolves every connection held at that moment with that exact payload, and
leaves the entry as an empty collection (so `count(id)` reads 0), not
absent. -/
theorem register_then_drain_delivers (s : Registry) (id : String)
    (c : Conn) (data : String) (hreal : classify data = .Real)
    (hc : c ∉ held s id) :
    (drainAndClear (register s id c) id).1.count c = 1 ∧
    (∀ x, x ∈ held (register s id c) id →
      (x, some data) ∈ (sendDataToSubscribers (register s id c) id data).2) ∧
    count (sendDataToSubscribers (register s id c) id data).1 id = 0 ∧
    getEntry (sendDataToSubscribers (register s id c) id data).1 id =
      some [] := by
  have hdrain : (drainAndClear (register s id c) id).1 = held s id ++ [c] := by
    unfold drainAndClear
    exact held_register s id c
  refine ⟨?_, ?_, ?_, ?_⟩
  · rw [hdrain, List.count_append]
    rw [List.count_eq_zero.mpr hc]
    simp
  · intro x hx
    unfold sendDataToSubscribers
    exact List.mem_map_of_mem _ hx
  · unfold count sendDataToSubscribers drainAndClear held
    rw [getEntry_setEntry_self]
    rfl
  · unfold sendDataToSubscribers drainAndClear
    exact getEntry_setEntry_self _ id []

/-- Witness for C1 at a concrete state: the empty registry, device
`"gen2-hansa"`, connection `⟨0⟩`, real payload `"42.5"`. -/
theorem register_then_drain_delivers_witness :
    (classify "42.5" = .Real ∧ Conn.mk 0 ∉ held registryEmpty "gen2-hansa") ∧
    ((drainAndClear (register registryEmpty "gen2-hansa" ⟨0⟩)
        "gen2-hansa").1.count ⟨0⟩ = 1 ∧
     (∀ x, x ∈ held (register registryEmpty "gen2-hansa" ⟨0⟩) "gen2-hansa" →
       (x, some "42.5") ∈
         (sendDataToSubscribers (register registryEmpty "gen2-hansa" ⟨0⟩)
           "gen2-hansa" "42.5").2) ∧
     count (sendDataToSubscribers (register registryEmpty "gen2-hansa" ⟨0⟩)
        "gen2-hansa" "42.5").1 "gen2-hansa" = 0 ∧
     getEntry (sendDataToSubscribers (register registryEmpty "gen2-hansa" ⟨0⟩)
        "gen2-hansa" "42.5").1 "gen2-hansa" = some []) :=
  ⟨⟨by decide, by decide⟩,
    register_then_drain_delivers registryEmpty "gen2-hansa" ⟨0⟩ "42.5"
      (by decide) (by decide)⟩

/-- C2: the freshness classifier answers `Empty` exactly on payloads of
length at most 2, `Real` otherwise, and depends only on the payload's
length. -/
theorem classify_empty_iff (p : String) :
    (classify p = .Empty ↔ p.length ≤ 2) ∧
    (classify p = .Real ↔ ¬ p.length ≤ 2) ∧
    (∀ q : String, p.length = q.length → classify p = classify q) := by
  refine ⟨?_, ?_, ?_⟩
  · unfold classify
    by_cases h : p.length ≤ 2 <;> simp [h]
  · unfold classify
    by_cases h : p.length ≤ 2 <;> simp [h]
  · intro q hq
    unfold classify
    rw [hq]

/-- Witness for C2 at concrete payloads: `"{}"` is classified empty and
`"ok"` shares its classification, both being of length 2. -/
theorem classify_empty_iff_witness :
    classify "ok" = Freshness.Empty ∧ classify "ok" = classify "17" :=
  ⟨(classify_empty_iff "ok").1.mpr (by decide),
   (classify_empty_iff "ok").2.2 "17" (by decide)⟩

-- ### The request handlers

/-- Outcome of a `handlePublishRequest` run that did not throw. -/
structure PublishOutcome where
  fetchInvoked : Bool
  actions : List ResAction
deriving DecidableEq, Repr

/-- `handlePublishRequest` (lines 128-144), parameterised by the value the
identifier `deviceId` resolves to in its lexical environment (`none` when
it is unbound, in which case evaluating it at line 130 raises a
ReferenceError).  When bound: read the subscriber count; when it is zero,
skip the upstream fetch; otherwise invoke `GetDeviceData` (its
`sendDataToSubscribers` continuation is asynchronous and separate); either
way answer with the CORS header, status 204 and a bodyless end
(lines 141-143). -/
def handlePublishRequest (subs : Registry) (deviceIdVal : Option String) :
    Except JsError PublishOutcome :=
  match deviceIdVal with
  | none => .error (.referenceError "deviceId")
  | some deviceId =>
      let subscriberCount := count subs deviceId
      if subscriberCount = 0 then
        .ok { fetchInvoked := false
              actions := [.setHeaderCors, .setStatus 204, .endWith none] }
      else
        .ok { fetchInvoked := true
              actions := [.setHeaderCors, .setStatus 204, .endWith none] }

/-- The call of line 90 as the source resolves it: the function's
parameter list (line 128) is `(req, res)`, so inside the body the
identifier `deviceId` is looked up through `handlePublishLocals` and the
module scope; the value passed as third argument at the call site
(`requestDevice`) is bound only if that lookup succeeds. -/
def handlePublishRequestAsCalled (subs : Registry) (requestDevice : String) :
    Except JsError PublishOutcome :=
  handlePublishRequest subs
    (if inScope handlePublishLocals "deviceId" then some requestDevice
     else none)

/-- Synchronous outcome of `handleSubscribeRequest` (lines 100-126). -/
inductive SubSync
  /-- POST branch (lines 102-118): installs the body `data`/`end`
  listeners and returns; the body handler runs later. -/
  | installedBodyHandler
  /-- The branch threw; `fetchStarted` records whether `GetDeviceData`
  was invoked before the throw. -/
  | threw (e : JsError) (fetchStarted : Bool)
  /-- GET branch success: a `.then` continuation was attached
  (unreachable in the source as written). -/
  | attachedContinuation
  /-- Neither POST nor GET: the function falls through returning
  `undefined`. -/
  | fellThrough
deriving DecidableEq, Repr

/-- `handleSubscribeRequest` (lines 100-126).  The GET branch (line 123)
first calls `GetDeviceData(deviceId)` (starting the fetch) and then
evaluates the argument of `.then`, the identifier `parseFunctionResponse`,
which is looked up through the branch locals and module scope. -/
def handleSubscribeRequest (method : String) : SubSync :=
  if method = "POST" then .installedBodyHandler
  else if method = "GET" then
    if inScope subscribeGetLocals "parseFunctionResponse" then
      .attachedContinuation
    else
      .threw (.referenceError "parseFunctionResponse") true
  else .fellThrough

/-- `parseDatabaseResponse` (lines 182-194): on an empty-classified
payload, park the connection via `saveSubscriber` (registry effect only;
its listener/timeout arming is modelled separately); on a real payload,
broadcast to all held connections, clear the entry and end the
originating response with the payload. -/
def parseDatabaseResponse (subs : Registry) (deviceId : String) (c : Conn)
    (data : String) : Registry × List (Conn × Option String) × List ResAction :=
  if data.length ≤ 2 then
    (register subs deviceId c, [], [])
  else
    ((sendDataToSubscribers subs deviceId data).1,
     (sendDataToSubscribers subs deviceId data).2,
     [.endWith (some (.payload data))])

/-- The body-`end` continuation of POST `/subscribe` (lines 108-116):
depending on the collected message it calls `GetDeviceData` or
`GetSetDeviceData` and chains `parseDatabaseResponse` with `.then` - with
no rejection handler and no enclosing `try`, so a rejected fetch
(`fetchResult = .error e`) escapes the request handling uncaught. -/
def postSubscribeOnEnd (subs : Registry) (deviceId : String) (c : Conn)
    (message : String) (fetchResult : Except String String) :
    Except String (Registry × List (Conn × Option String) × List ResAction) :=
  match fetchResult with
  | .error e => .error e
  | .ok data =>
      if message.length ≤ 2 then .ok (parseDatabaseResponse subs deviceId c data)
      else .ok (parseDatabaseResponse subs deviceId c data)

/-- C3: the publish handler as actually called.  Its parameter list drops
`deviceId`, so line 130 evaluates an unbound identifier and the handler
throws for every registry state, never reading the count, never skipping
or starting a fetch, and never sending the 204 acknowledgement. -/
theorem handlePublishRequest_throws (subs : Registry) (d : String) :
    handlePublishRequestAsCalled subs d =
      .error (.referenceError "deviceId") := by
  unfold handlePublishRequestAsCalled
  have h : inScope handlePublishLocals "deviceId" = false := by decide
  rw [h]
  rfl

/-- C4: the GET branch of `handleSubscribeRequest` starts the upstream
fetch and then throws a ReferenceError evaluating the undefined
`parseFunctionResponse` (line 123), so no continuation ever receives the
fetched payload: no immediate response with a real payload, and no
registration on an empty one. -/
theorem subscribeGet_throws :
    handleSubscribeRequest "GET" =
      .threw (.referenceError "parseFunctionResponse") true := by
  unfold handleSubscribeRequest
  have h : inScope subscribeGetLocals "parseFunctionResponse" = false := by
    decide
  rw [h]
  rfl

-- ### The synchronous phase of handleRequest

/-- An inbound request as `handleRequest` sees it after `url.parse`
(line 54): method, pathname, the `device` and `code` query parameters
(`none` for JS `undefined`) and the truthiness of the `ping` parameter. -/
structure Request where
  method : String
  pathname : String
  device : Option String
  code : Option String
  ping : Bool
deriving DecidableEq, Repr

/-- Everything the synchronous run of `handleRequest` (lines 52-97)
produces: the response actions in order, the error reaching the `catch`
of line 93 (if any), whether an upstream fetch was started, whether the
POST `/subscribe` body listeners were installed, and whether control
reached the `/publish` dispatch line 84. -/
structure SyncOutcome where
  actions : List ResAction
  caught : Option JsError := none
  fetchStarted : Bool := false
  bodyHandlerInstalled : Bool := false
  reachedLine84 : Bool := false
deriving DecidableEq, Repr

/-- The OPTIONS preflight block of lines 64-67, which ends the response
with the CORS header but does not return, falling through to the rest of
the handler. -/
def corsActions (req : Request) : List ResAction :=
  if req.method = "OPTIONS" then [.setHeaderCors, .endWith none] else []

/-- Line 84 onward: evaluate `urlParsed.pathname`.  The identifier
`urlParsed` is looked up through the handler's locals and module scope
(the declared variable is `parsedUrl`); if unbound, the ReferenceError
lands in the `catch` of line 93, which sets status 500 and ends the
response with no body. -/
def afterDispatch (req : Request) (a0 : List ResAction) (installed : Bool)
    (fs : Bool) : SyncOutcome :=
  if inScope handleRequestLocals "urlParsed" then
    { actions := a0, bodyHandlerInstalled := installed, fetchStarted := fs
      reachedLine84 := true }
  else
    { actions := a0 ++ [.setStatus 500, .endWith none]
      caught := some (.referenceError "urlParsed")
      bodyHandlerInstalled := installed, fetchStarted := fs
      reachedLine84 := true }

/-- The synchronous body of `handleRequest` (lines 52-97): ping
short-circuit (lines 56-59), OPTIONS block (64-67), missing-device 400
(69-73), subscription-key check and dispatch to `handleSubscribeRequest`
(75-82), then the `/publish` dispatch of line 84; any throw is caught at
line 93 and answered with a bare 500. -/
def handleRequestSync (subKey : String) (req : Request) : SyncOutcome :=
  if req.ping then { actions := [.endWith (some .pingSuccess)] }
  else if req.device = none then
    { actions := corsActions req ++
        [.setStatus 400, .endWith (some .errMissingDevice)] }
  else if req.pathname = "/subscribe" ∧ req.code ≠ some subKey then
    { actions := corsActions req ++
        [.setStatus 403, .endWith (some .errInvalidSubKey)] }
  else if req.pathname = "/subscribe" then
    match handleSubscribeRequest req.method with
    | .threw e fs =>
        { actions := corsActions req ++ [.setStatus 500, .endWith none]
          caught := some e, fetchStarted := fs }
    | .installedBodyHandler => afterDispatch req (corsActions req) true false
    | .attachedContinuation => afterDispatch req (corsActions req) false true
    | .fellThrough => afterDispatch req (corsActions req) false false
  else afterDispatch req (corsActions req) false false

/-- C9 counterexample: a GET `/subscribe` request with a device and the
matching subscription key is in the claim's scope, yet its run never
reaches line 84 - the ReferenceError it catches is the undefined
`parseFunctionResponse` thrown inside `handleSubscribeRequest` at
line 123, before the `/publish` dispatch. -/
theorem getSubscribe_does_not_reach_line84 :
    (¬(("/subscribe" : String) = "/subscribe" ∧
        (some "test-subscription-key" : Option String) ≠
          some "test-subscription-key")) ∧
    (handleRequestSync "test-subscription-key"
        ⟨"GET", "/subscribe", some "gen2-hansa",
          some "test-subscription-key", false⟩).reachedLine84 = false ∧
    (handleRequestSync "test-subscription-key"
        ⟨"GET", "/subscribe", some "gen2-hansa",
          some "test-subscription-key", false⟩).caught =
      some (.referenceError "parseFunctionResponse") := by
  refine ⟨by simp, ?_, ?_⟩ <;> decide

/-- C9 as amended: every request carrying a device parameter, not
short-circuited by ping and not rejected by the subscription-key check is
answered by the catch block with a bare 500 after a ReferenceError - the
undefined `parseFunctionResponse` (line 123, before line 84 is reached)
when it was dispatched to the GET branch of `handleSubscribeRequest`, and
the undefined `urlParsed` at the line 84 `/publish` dispatch in every
other case, including POST `/subscribe` dispatches whose body listeners
were installed but whose response is 500-ended before any fetched payload
arrives. -/
theorem handleRequestSync_always_500 (subKey : String) (req : Request)
    (h1 : req.device ≠ none) (h2 : req.ping = false)
    (h3 : ¬(req.pathname = "/subscribe" ∧ req.code ≠ some subKey)) :
    (handleRequestSync subKey req).actions =
      corsActions req ++ [.setStatus 500, .endWith none] ∧
    (if req.pathname = "/subscribe" ∧ req.method = "GET" then
      (handleRequestSync subKey req).caught =
          some (.referenceError "parseFunctionResponse") ∧
        (handleRequestSync subKey req).reachedLine84 = false ∧
        (handleRequestSync subKey req).fetchStarted = true
     else
      (handleRequestSync subKey req).caught =
          some (.referenceError "urlParsed") ∧
        (handleRequestSync subKey req).reachedLine84 = true ∧
        (handleRequestSync subKey req).bodyHandlerInstalled =
          (req.pathname == "/subscribe" && req.method == "POST")) := by
  have hurl : inScope handleRequestLocals "urlParsed" = false := by decide
  have hpfr : inScope subscribeGetLocals "parseFunctionResponse" = false := by
    decide
  unfold handleRequestSync
  rw [h2]
  simp only [Bool.false_eq_true, if_false]
  rw [if_neg h1, if_neg h3]
  by_cases hp : req.pathname = "/subscribe"
  · rw [if_pos hp]
    unfold handleSubscribeRequest
    by_cases hpost : req.method = "POST"
    · rw [if_pos hpost]
      have hget : ¬(req.pathname = "/subscribe" ∧ req.method = "GET") := by
        intro hcon
        rw [hpost] at hcon
        exact absurd hcon.2 (by decide)
      rw [if_neg hget]
      unfold afterDispatch
      rw [hurl]
      simp [hp, hpost]
    · rw [if_neg hpost]
      by_cases hget : req.method = "GET"
      · rw [if_pos hget]
        rw [hpfr]
        simp only [Bool.false_eq_true, if_false]
        rw [if_pos ⟨hp, hget⟩]
        simp
      · rw [if_neg hget]
        have hgets : ¬(req.pathname = "/subscribe" ∧ req.method = "GET") :=
          fun hcon => hget hcon.2
        rw [if_neg hgets]
        unfold afterDispatch
        rw [hurl]
        simp [hp, hpost]
  · rw [if_neg hp]
    have hgets : ¬(req.pathname = "/subscribe" ∧ req.method = "GET") :=
      fun hcon => hp hcon.1
    rw [if_neg hgets]
    unfold afterDispatch
    rw [hurl]
    simp [hp]

/-- Witness for the amended C9 at a concrete request: a POST `/publish`
request with a device, which evaluates `urlParsed` at line 84 and gets the
bare 500. -/
theorem handleRequestSync_always_500_witness :
    ((handleRequestSync "test-subscription-key"
        ⟨"POST", "/publish", some "gen2-hansa", some "test-publish-key",
          false⟩).actions =
      corsActions ⟨"POST", "/publish", some "gen2-hansa",
          some "test-publish-key", false⟩ ++
        [.setStatus 500, .endWith none] ∧
     if ("/publish" : String) = "/subscribe" ∧ ("POST" : String) = "GET" then
      (handleRequestSync "test-subscription-key"
          ⟨"POST", "/publish", some "gen2-hansa", some "test-publish-key",
            false⟩).caught =
          some (.referenceError "parseFunctionResponse") ∧
        (handleRequestSync "test-subscription-key"
          ⟨"POST", "/publish", some "gen2-hansa", some "test-publish-key",
            false⟩).reachedLine84 = false ∧
        (handleRequestSync "test-subscription-key"
          ⟨"POST", "/publish", some "gen2-hansa", some "test-publish-key",
            false⟩).fetchStarted = true
     else
      (handleRequestSync "test-subscription-key"
          ⟨"POST", "/publish", some "gen2-hansa", some "test-publish-key",
            false⟩).caught =
          some (.referenceError "urlParsed") ∧
        (handleRequestSync "test-subscription-key"
          ⟨"POST", "/publish", some "gen2-hansa", some "test-publish-key",
            false⟩).reachedLine84 = true ∧
        (handleRequestSync "test-subscription-key"
          ⟨"POST", "/publish", some "gen2-hansa", some "test-publish-key",
            false⟩).bodyHandlerInstalled =
          (("/publish" : String) == "/subscribe" &&
            ("POST" : String) == "POST")) :=
  handleRequestSync_always_500 "test-subscription-key"
    ⟨"POST", "/publish", some "gen2-hansa", some "test-publish-key", false⟩
    (by decide) rfl (by decide)

-- ### Per-connection timeout, close listener and shutdown

/-- The close listener installed at lines 156-159: on the peer closing the
connection, `subscribers[deviceId]` is replaced by its filter dropping the
handles reference-equal to `res` (the entry exists because the listener is
installed right after the push of line 153). -/
def closeListener (s : Registry) (id : String) (c : Conn) : Registry :=
  setEntry s id ((held s id).filter (fun x => x != c))

/-- The socket-timeout callback armed at lines 162-165: it logs and calls
`res.end()` (a bodyless resolution) and touches nothing else - in
particular it does not remove the connection from `subscribers`. -/
def timeoutCallback (s : Registry) (c : Conn) :
    Registry × List (Conn × Option String) :=
  (s, [(c, none)])

/-- The event-visible state of one held connection: the `res.end` calls it
has received so far (with their bodies) and whether the socket timeout
armed at line 162 is still pending. -/
structure ConnTrack where
  endEffects : List (Option String)
  timerArmed : Bool
deriving DecidableEq, Repr

/-- State of a connection right after `saveSubscriber` (lines 146-166):
no resolution yet, and the one-shot socket timeout of line 162 armed. -/
def afterRegister : ConnTrack :=
  { endEffects := [], timerArmed := true }

/-- Delivery to this connection by `sendDataToSubscribers` (line 202):
`res.end(data)`.  The source contains no `clearTimeout` and never touches
the socket timeout again, so the pending timer is left armed. -/
def deliverTo (t : ConnTrack) (data : String) : ConnTrack :=
  { t with endEffects := t.endEffects ++ [some data] }

/-- The one-shot socket timeout firing (lines 162-165): if still armed,
its callback calls `res.end()` - unconditionally, with no check whether
the connection was already resolved. -/
def timerFireOn (t : ConnTrack) : ConnTrack :=
  if t.timerArmed then
    { endEffects := t.endEffects ++ [none], timerArmed := false }
  else t

/-- C5: evaluating the code on the trace register-deliver-timerFire shows
the defect: delivery leaves the timer armed (nothing in the source disarms
it), and the stale timer then resolves the already-resolved connection a
second time. -/
theorem timer_never_disarmed :
    (deliverTo afterRegister "42.5").timerArmed = true ∧
    (timerFireOn (deliverTo afterRegister "42.5")).endEffects =
      [some "42.5", none] := by
  refine ⟨rfl, ?_⟩
  decide

/-- C6 counterexample: a connection registered for `"gen2-hansa"` whose
timeout callback has just run is resolved with an empty body, yet a drain
performed right afterwards still returns a sequence containing it - the
timeout callback does not remove it from the registry. -/
theorem timeout_leaves_connection_registered :
    (timeoutCallback (register registryEmpty "gen2-hansa" ⟨0⟩) ⟨0⟩).2 =
      [(⟨0⟩, none)] ∧
    Conn.mk 0 ∈
      (drainAndClear
        (timeoutCallback (register registryEmpty "gen2-hansa" ⟨0⟩) ⟨0⟩).1
        "gen2-hansa").1 := by
  refine ⟨rfl, ?_⟩
  decide

/-- C6 as amended: the timeout callback resolves the connection with an
empty terminal response but leaves the registry untouched; the connection
is removed only when the close listener fires on the subsequent connection
close, after which a drain for that identifier no longer contains it. -/
theorem timeout_then_close_removes (s : Registry) (id : String) (c : Conn) :
    timeoutCallback s c = (s, [(c, none)]) ∧
    c ∉ (drainAndClear (closeListener s id c) id).1 := by
  refine ⟨rfl, ?_⟩
  unfold drainAndClear closeListener held
  rw [getEntry_setEntry_self]
  simp [List.mem_filter]

/-- Result of one `gracefullyShutdown` run. -/
structure ShutdownResult where
  registry : Registry
  ends : List (Conn × Option String)
  exitDelayMs : Nat
deriving DecidableEq

/-- `gracefullyShutdown` (lines 208-218): iterate the registry's own keys
in insertion order, call `res.end()` on every held connection, and
schedule `process.exit` after 1000 ms.  The loop never writes to
`subscribers`, so the registry is returned unchanged. -/
def gracefullyShutdown (s : Registry) : ShutdownResult :=
  { registry := s
    ends := s.flatMap (fun kv => kv.2.map (fun c => (c, none)))
    exitDelayMs := 1000 }

/-- Two connections registered on different identifiers, as in the spec's
shutdown scenario. -/
def sTwo : Registry :=
  register (register registryEmpty "dev-a" ⟨1⟩) "dev-b" ⟨2⟩

/-- C7 counterexample: after a first shutdown over two held connections,
an immediate second invocation does not find the connections already
resolved/removed - the registry was left unchanged, so the second run
calls end on both of them again. -/
theorem second_shutdown_reresolves :
    (gracefullyShutdown sTwo).registry = sTwo ∧
    (gracefullyShutdown (gracefullyShutdown sTwo).registry).ends =
      [(⟨1⟩, none), (⟨2⟩, none)] := by
  refine ⟨rfl, ?_⟩
  decide

theorem mem_shutdown_ends (s : Registry) (id : String) (c : Conn)
    (hc : c ∈ held s id) :
    (c, (none : Option String)) ∈ (gracefullyShutdown s).ends := by
  unfold gracefullyShutdown
  simp only
  induction s with
  | nil => simp [held, getEntry] at hc
  | cons kv rest ih =>
      obtain ⟨k, v⟩ := kv
      by_cases h : k = id
      · unfold held getEntry at hc
        rw [if_pos h] at hc
        simp only [Option.getD_some] at hc
        simp only [List.flatMap_cons]
        exact List.mem_append_left _ (List.mem_map_of_mem _ hc)
      · unfold held getEntry at hc
        rw [if_neg h] at hc
        simp only [List.flatMap_cons]
        exact List.mem_append_right _ (ih hc)

/-- C7 as amended: shutdown resolves every held connection, across all
identifiers, with an empty terminal response before the 1000 ms exit
grace; a second immediate invocation raises no error, but because the
registry is left unchanged it resolves the same still-registered
connections a second time rather than finding them already removed. -/
theorem shutdown_resolves_all (s : Registry) (id : String) (c : Conn)
    (hc : c ∈ held s id) :
    (c, (none : Option String)) ∈ (gracefullyShutdown s).ends ∧
    (gracefullyShutdown s).registry = s ∧
    (gracefullyShutdown s).exitDelayMs = 1000 ∧
    (c, (none : Option String)) ∈
      (gracefullyShutdown (gracefullyShutdown s).registry).ends := by
  refine ⟨mem_shutdown_ends s id c hc, rfl, rfl, ?_⟩
  exact mem_shutdown_ends s id c hc

/-- Witness for the amended C7 at the two-connection state. -/
theorem shutdown_resolves_all_witness :
    (Conn.mk 1 ∈ held sTwo "dev-a") ∧
    ((Conn.mk 1, (none : Option String)) ∈ (gracefullyShutdown sTwo).ends ∧
     (gracefullyShutdown sTwo).registry = sTwo ∧
     (gracefullyShutdown sTwo).exitDelayMs = 1000 ∧
     (Conn.mk 1, (none : Option String)) ∈
       (gracefullyShutdown (gracefullyShutdown sTwo).registry).ends) :=
  ⟨by decide, shutdown_resolves_all sTwo "dev-a" ⟨1⟩ (by decide)⟩

-- ### Error-handling scope of handleRequest

theorem afterDispatch_actions (req : Request) (a0 : List ResAction)
    (installed fs : Bool) :
    (afterDispatch req a0 installed fs).actions =
      a0 ++ [.setStatus 500, .endWith none] := by
  have hurl : inScope handleRequestLocals "urlParsed" = false := by decide
  simp [afterDispatch, hurl]

/-- C8 counterexample: during the handling of a POST `/subscribe` request,
a rejected upstream fetch in the body-`end` continuation is not converted
into any response - the error survives the whole of the request-handling
code, escaping uncaught instead of being surfaced as a bare 500. -/
theorem fetch_rejection_escapes_uncaught :
    postSubscribeOnEnd registryEmpty "gen2-hansa" ⟨0⟩ ""
        (.error "ECONNREFUSED") =
      .error "ECONNREFUSED" := rfl

/-- C8 as amended: an exception thrown in the synchronous body of
`handleRequest` is caught at line 93 and surfaced as a bare 500 with no
body, but errors arising in the asynchronous continuations (the POST
`/subscribe` body handler's unprotected fetch chain) are outside the
`try` of line 52 and escape request handling uncaught. -/
theorem catch_covers_only_sync_phase (subKey : String) (req : Request)
    (e : JsError) (h : (handleRequestSync subKey req).caught = some e) :
    (handleRequestSync subKey req).actions =
      corsActions req ++ [.setStatus 500, .endWith none] ∧
    (∀ (subs : Registry) (id : String) (c : Conn) (msg err : String),
      postSubscribeOnEnd subs id c msg (.error err) = .error err) := by
  refine ⟨?_, fun subs id c msg err => rfl⟩
  unfold handleRequestSync at h ⊢
  by_cases h1 : req.ping = true
  · rw [if_pos h1] at h
    simp at h
  · rw [if_neg h1] at h ⊢
    by_cases h2 : req.device = none
    · rw [if_pos h2] at h
      simp at h
    · rw [if_neg h2] at h ⊢
      by_cases h3 : req.pathname = "/subscribe" ∧ req.code ≠ some subKey
      · rw [if_pos h3] at h
        simp at h
      · rw [if_neg h3] at h ⊢
        by_cases h4 : req.pathname = "/subscribe"
        · rw [if_pos h4]
          cases hsub : handleSubscribeRequest req.method with
          | installedBodyHandler => exact afterDispatch_actions req _ _ _
          | threw e2 fs => rfl
          | attachedContinuation => exact afterDispatch_actions req _ _ _
          | fellThrough => exact afterDispatch_actions req _ _ _
        · rw [if_neg h4]
          exact afterDispatch_actions req _ _ _

/-- Witness for the amended C8 at a concrete request (POST `/publish`,
whose sync phase catches the line 84 ReferenceError) and a concrete
rejected fetch in the POST `/subscribe` continuation. -/
theorem catch_covers_only_sync_phase_witness :
    (handleRequestSync "test-subscription-key"
        ⟨"POST", "/publish", some "gen2-hansa", some "test-publish-key",
          false⟩).actions =
      corsActions ⟨"POST", "/publish", some "gen2-hansa",
          some "test-publish-key", false⟩ ++
        [.setStatus 500, .endWith none] ∧
    postSubscribeOnEnd registryEmpty "gen2-ikea" ⟨3⟩ "ok"
        (.error "ETIMEDOUT") =
      .error "ETIMEDOUT" :=
  ⟨(catch_covers_only_sync_phase "test-subscription-key"
      ⟨"POST", "/publish", some "gen2-hansa", some "test-publish-key", false⟩
      (.referenceError "urlParsed") (by decide)).1,
   (catch_covers_only_sync_phase "test-subscription-key"
      ⟨"POST", "/publish", some "gen2-hansa", some "test-publish-key", false⟩
      (.referenceError "urlParsed") (by decide)).2
      registryEmpty "gen2-ikea" ⟨3⟩ "ok" "ETIMEDOUT"⟩

-- ### Top-level module evaluation

/-- The top-level statements of lines 220-237, in source order. -/
inductive TopStep
  | createServerListen
  | logServerRunning
  | warnSubscribeKey
  | warnPublishKey
  | warnGetDataKey
  | warnGetSetDataKey
  | registerSigintHandler
  | registerSigtermHandler
  | registerBeforeExitHandler
deriving DecidableEq, Repr

/-- The identifiers each top-level statement evaluates, in evaluation
order.  Line 222 reads `subscribeKey` (the declared constant is named
`subscriptionKey`, line 7). -/
def stepReads : TopStep → List String
  | .createServerListen => ["http", "handleRequest", "port"]
  | .logServerRunning => ["console", "port"]
  | .warnSubscribeKey => ["subscribeKey", "console"]
  | .warnPublishKey => ["publishKey", "console"]
  | .warnGetDataKey => ["PLC_GetDataKey", "console"]
  | .warnGetSetDataKey => ["PLC_GetSetDataKey", "console"]
  | .registerSigintHandler => ["process", "gracefullyShutdown"]
  | .registerSigtermHandler => ["process", "gracefullyShutdown"]
  | .registerBeforeExitHandler => ["process", "gracefullyShutdown"]

/-- Lines 220-237 in order. -/
def topLevelSteps : List TopStep :=
  [.createServerListen, .logServerRunning,
   .warnSubscribeKey, .warnPublishKey, .warnGetDataKey, .warnGetSetDataKey,
   .registerSigintHandler, .registerSigtermHandler,
   .registerBeforeExitHandler]

/-- Sequential top-level evaluation: each statement resolves the
identifiers it reads against module scope and globals; the first
unresolved identifier raises a ReferenceError and stops evaluation.
Environment variables only choose the values of the bound constants
(lines 6-13), never the set of bindings, so this is the startup behaviour
for every configuration. -/
def runTopLevel : List TopStep → List TopStep × Option JsError
  | [] => ([], none)
  | step :: rest =>
      match (stepReads step).find? (fun n => !(inScope [] n)) with
      | some n => ([], some (.referenceError n))
      | none =>
          (step :: (runTopLevel rest).1, (runTopLevel rest).2)

/-- C10: startup executes the server-listen and log statements, then
line 222 evaluates the unbound `subscribeKey` and raises a
ReferenceError, so the remaining warning checks and the SIGINT, SIGTERM
and beforeExit registrations of lines 235-237 never execute. -/
theorem startup_raises_reference_error :
    runTopLevel topLevelSteps =
      ([.createServerListen, .logServerRunning],
        some (.referenceError "subscribeKey")) ∧
    TopStep.registerSigintHandler ∉ (runTopLevel topLevelSteps).1 ∧
    TopStep.registerSigtermHandler ∉ (runTopLevel topLevelSteps).1 ∧
    TopStep.registerBeforeExitHandler ∉ (runTopLevel topLevelSteps).1 := by
  decide

end LongPoll
